import Mathlib

/-!
Shallow embedding of `libraries/AP_Terrain/TerrainGCS.cpp` (ArduPilot terrain
GCS synchronization): the tile identity/bitmap model, chunk ingestion
(`handle_terrain_data`), the request scheduler (`request_missing`,
`send_request`) and the status reporter (`get_statistics`, `bitcount64`).

Machine integers are modelled as `Nat`/`Int` with explicit `% 2^w` where the C
code's fixed width matters (the uint32 millisecond subtraction, the uint64
bitmap, the uint16 statistics accumulators).  External collaborators declared
in AP_Terrain.h (the grid cache lookup, position source, geometry and MAVLink
transport) are passed in as explicit function parameters bundled in `Env`, and
outbound messages are returned as data.
-/

namespace Terrain

/-- Modelled from the spec: `TERRAIN_GRID_MAVLINK_SIZE` from AP_Terrain.h (not under
src/) — the sub-chunk edge length in samples; the spec's sub-chunks are 4×4 ("request
any missing 4x4 grids"). -/
def TERRAIN_GRID_MAVLINK_SIZE : Nat := 4

/-- Modelled from the spec: `TERRAIN_GRID_BLOCK_MUL_X` from AP_Terrain.h (not under
src/) — number of sub-chunk rows per tile; with `TERRAIN_GRID_BLOCK_MUL_Y = 8` this
gives the spec's 56 sub-chunks per tile and the 28-cell X extent. -/
def TERRAIN_GRID_BLOCK_MUL_X : Nat := 7

/-- Modelled from the spec: `TERRAIN_GRID_BLOCK_MUL_Y` from AP_Terrain.h (not under
src/) — number of sub-chunk columns per tile (`chunks_per_column`). -/
def TERRAIN_GRID_BLOCK_MUL_Y : Nat := 8

/-- Modelled from the spec: `TERRAIN_GRID_BLOCK_SIZE_X` from AP_Terrain.h (not under
src/) — tile matrix X extent in cells, `TERRAIN_GRID_BLOCK_MUL_X * TERRAIN_GRID_MAVLINK_SIZE = 28`. -/
def TERRAIN_GRID_BLOCK_SIZE_X : Nat := TERRAIN_GRID_BLOCK_MUL_X * TERRAIN_GRID_MAVLINK_SIZE

/-- Modelled from the spec: `TERRAIN_GRID_BLOCK_SIZE_Y` from AP_Terrain.h (not under
src/) — tile matrix Y extent in cells, `TERRAIN_GRID_BLOCK_MUL_Y * TERRAIN_GRID_MAVLINK_SIZE = 32`. -/
def TERRAIN_GRID_BLOCK_SIZE_Y : Nat := TERRAIN_GRID_BLOCK_MUL_Y * TERRAIN_GRID_MAVLINK_SIZE

/-- Modelled from the spec: `TERRAIN_GRID_BLOCK_CACHE_SIZE` from AP_Terrain.h (not
under src/) — capacity of the fixed cache table (12 entries). -/
def TERRAIN_GRID_BLOCK_CACHE_SIZE : Nat := 12

/-- Modelled from the spec: `bitmap_mask` from AP_Terrain.h (not under src/) — the
constant full mask, one bit per sub-chunk: `(1 << 56) - 1`. -/
def bitmap_mask : Nat := (1 <<< (TERRAIN_GRID_BLOCK_MUL_X * TERRAIN_GRID_BLOCK_MUL_Y)) - 1

/-- All-ones value of a uint64; `bitmap_mask & ~grid.bitmap` is modelled as
`bitmap_mask &&& (UINT64_MAX ^^^ grid.bitmap)`, which is the uint64 complement for
bitmaps below `2^64`. -/
def UINT64_MAX : Nat := 2 ^ 64 - 1

/-- Lifecycle state of a cache entry: the C enum `GRID_CACHE_INVALID`,
`GRID_CACHE_DISKWAIT`, `GRID_CACHE_VALID`, `GRID_CACHE_DIRTY`. -/
inductive GridState
  | invalid
  | diskwait
  | valid
  | dirty
deriving DecidableEq, Repr

/-- Numeric value of the C enumeration; the scheduler's cache scan tests
`cache[i].state >= GRID_CACHE_VALID` by this ordinal. -/
def state_ord : GridState → Nat
  | .invalid => 0
  | .diskwait => 1
  | .valid => 2
  | .dirty => 3

/-- One `grid_block`: tile address (lat/lon of the fixed corner, recorded spacing),
the fill bitmap (uint64) and the 28×32 elevation matrix, modelled as a total
function on coordinates (only indices below the extents are ever addressed). -/
structure grid_block where
  lat : Int
  lon : Int
  spacing : Nat
  bitmap : Nat
  height : Nat → Nat → Int

/-- One `grid_cache` entry: a tile plus its lifecycle state. -/
structure grid_cache where
  grid : grid_block
  state : GridState

/-- Geographic location, fixed-point 1e7 degrees (the fields of `Location` used by
this file). -/
structure Location where
  lat : Int
  lng : Int
deriving DecidableEq, Repr

/-- Tile address produced by the external `calculate_grid_info` collaborator; only
its identity matters to this file, so it is kept abstract as a lat/lon pair. -/
structure grid_info where
  lat : Int
  lon : Int
deriving DecidableEq, Repr

/-- The literal arguments of `mavlink_msg_terrain_request_send(chan, lat, lon,
spacing, mask)`. -/
structure TerrainRequestMsg where
  lat : Int
  lon : Int
  spacing : Nat
  mask : Nat
deriving DecidableEq, Repr

/-- Result of `request_missing`: the returned Bool, the request message sent (if
any), and the resulting `last_request_time_ms`. -/
structure RMResult where
  sent : Bool
  msg : Option TerrainRequestMsg
  last_ms : Nat
deriving DecidableEq, Repr

/-- AP_Terrain state owned by this file's code paths: the cache table (modelled as a
list), `last_request_time_ms` (uint32 timestamp stamped on issuance), the global
`grid_spacing` parameter and the `enable` parameter. -/
structure TerrainState where
  cache : List grid_cache
  last_request_time_ms : Nat
  grid_spacing : Nat
  enable : Int

/-- The decoded payload of a TERRAIN_DATA message: `mavlink_terrain_data_t`
(`lat`, `lon`, `grid_spacing`, `gridbit`, `data[16]`; the sample array is modelled
as a function on the flat index `x*4+y`). -/
structure terrain_data_pkt where
  lat : Int
  lon : Int
  grid_spacing : Nat
  gridbit : Nat
  data : Nat → Int

/-- `request_missing(chan, gcache)` (TerrainGCS.cpp lines 37–60): nothing to do when
the entry waits on disk or is fully populated; otherwise send a TERRAIN_REQUEST
carrying the entry's lat/lon, the *global* `grid_spacing` parameter and the missing
mask, and stamp `last_request_time_ms` with the current time. -/
def request_missing (now last gsp : Nat) (gc : grid_cache) : RMResult :=
  if gc.state = GridState.diskwait then
    ⟨false, none, last⟩
  else if gc.grid.bitmap &&& bitmap_mask = bitmap_mask then
    ⟨false, none, last⟩
  else
    ⟨true, some ⟨gc.grid.lat, gc.grid.lon, gsp, bitmap_mask &&& (UINT64_MAX ^^^ gc.grid.bitmap)⟩, now⟩

/-- Whether `request_missing` would act on this entry (send a request) rather than
return "nothing to do". -/
def rm_acts (gc : grid_cache) : Bool :=
  decide (¬ gc.state = GridState.diskwait ∧ ¬ gc.grid.bitmap &&& bitmap_mask = bitmap_mask)

/-- The uint32 subtraction `hal.scheduler->millis() - last_request_time_ms`: both
operands truncated to 32 bits, difference taken modulo `2^32`. -/
def delta32 (now last : Nat) : Nat :=
  (now % 4294967296 + (4294967296 - last % 4294967296)) % 4294967296

/-- The matching condition of the lookup loop in `handle_terrain_data` (lines
222–229): address equality on all three fields *and* `packet.gridbit < 56`; an
entry only "matches" when the chunk index is in range, so an out-of-range index
never reaches the write step. -/
def pmatchb (pkt : terrain_data_pkt) (gc : grid_cache) : Bool :=
  decide (gc.grid.lat = pkt.lat ∧ gc.grid.lon = pkt.lon ∧
          gc.grid.spacing = pkt.grid_spacing ∧ pkt.gridbit < 56)

/-- `idx_x = (packet.gridbit / TERRAIN_GRID_BLOCK_MUL_Y) * TERRAIN_GRID_MAVLINK_SIZE` (line 236). -/
def idx_x (gridbit : Nat) : Nat :=
  (gridbit / TERRAIN_GRID_BLOCK_MUL_Y) * TERRAIN_GRID_MAVLINK_SIZE

/-- `idx_y = (packet.gridbit % TERRAIN_GRID_BLOCK_MUL_Y) * TERRAIN_GRID_MAVLINK_SIZE` (line 237). -/
def idx_y (gridbit : Nat) : Nat :=
  (gridbit % TERRAIN_GRID_BLOCK_MUL_Y) * TERRAIN_GRID_MAVLINK_SIZE

/-- Point update of the elevation matrix: `grid.height[p][q] = v`. -/
def upd2 (h : Nat → Nat → Int) (p q : Nat) (v : Int) : Nat → Nat → Int :=
  fun a b => if a = p ∧ b = q then v else h a b

/-- The nested sample-copy loops of `handle_terrain_data` (lines 240–245):
`for x in 0..3, for y in 0..3: height[ix+x][iy+y] = data[x*4+y]`.
`ASSERT_RANGE` on the written sample is, per the spec, a debug-only assertion with
no release-mode effect (it neither clamps, skips nor aborts), so it contributes
nothing here. -/
def chunk_write (h : Nat → Nat → Int) (ix iy : Nat) (data : Nat → Int) : Nat → Nat → Int :=
  (List.range TERRAIN_GRID_MAVLINK_SIZE).foldl
    (fun h x =>
      (List.range TERRAIN_GRID_MAVLINK_SIZE).foldl
        (fun h y => upd2 h (ix + x) (iy + y) (data (x * TERRAIN_GRID_MAVLINK_SIZE + y)))
        h)
    h

/-- The body of `handle_terrain_data` applied to the matching entry (lines 234–249):
copy the 4×4 samples, OR the gridbit into the bitmap, and set the state to
`GRID_CACHE_DIRTY` unconditionally. -/
def apply_chunk (pkt : terrain_data_pkt) (gc : grid_cache) : grid_cache :=
  { grid := { gc.grid with
      height := chunk_write gc.grid.height (idx_x pkt.gridbit) (idx_y pkt.gridbit) pkt.data
      bitmap := gc.grid.bitmap ||| (1 <<< pkt.gridbit) }
    state := GridState.dirty }

/-- The lookup-then-apply structure of `handle_terrain_data` over the cache table:
the first entry satisfying the loop's match condition receives the chunk; if none
matches (including every case with `gridbit ≥ 56`), the table is untouched. -/
def apply_to_cache (pkt : terrain_data_pkt) : List grid_cache → List grid_cache
  | [] => []
  | gc :: rest =>
    if pmatchb pkt gc then apply_chunk pkt gc :: rest
    else gc :: apply_to_cache pkt rest

/-- `handle_terrain_data(msg)` (lines 216–272).  The trailing `update()` call is the
external cache's housekeeping hook (spec §4.2 step 7), outside this core's state. -/
def handle_terrain_data (pkt : terrain_data_pkt) (s : TerrainState) : TerrainState :=
  { s with cache := apply_to_cache pkt s.cache }

/-- Inbound messages dispatched by `handle_data` (lines 173–180). -/
inductive mavlink_msg
  | terrain_data (pkt : terrain_data_pkt)
  | terrain_check (lat lon : Int)
  | other (msgid : Nat)

/-- `handle_data(chan, msg)`: dispatch by message id.  Note: no `enable` check.
`handle_terrain_check` only emits a TERRAIN_REPORT (no tile state change), and an
unknown id is ignored. -/
def handle_data (msg : mavlink_msg) (s : TerrainState) : TerrainState :=
  match msg with
  | .terrain_data pkt => handle_terrain_data pkt s
  | .terrain_check _ _ => s
  | .other _ => s

/-- Fold over the payloads of a delivery sequence (each one a `handle_terrain_data`
invocation on the cache table). -/
def apply_all (pkts : List terrain_data_pkt) (cache : List grid_cache) : List grid_cache :=
  pkts.foldl (fun c p => apply_to_cache p c) cache

/-- Union of the chunk-index bits of a payload sequence. -/
def bits_union (pkts : List terrain_data_pkt) : Nat :=
  pkts.foldl (fun m p => m ||| (1 <<< p.gridbit)) 0

/-- Bitmap of the cache entry at index `i` (0 when out of range). -/
def bitmap_at : List grid_cache → Nat → Nat
  | [], _ => 0
  | gc :: _, 0 => gc.grid.bitmap
  | _ :: rest, n + 1 => bitmap_at rest n

/-- State of the cache entry at index `i` (`invalid` when out of range). -/
def state_at : List grid_cache → Nat → GridState
  | [], _ => GridState.invalid
  | gc :: _, 0 => gc.state
  | _ :: rest, n + 1 => state_at rest n

/-- `__builtin_popcount` of a 32-bit value: the number of set bits among bits 0–31. -/
def popcount32 (v : Nat) : Nat :=
  (List.range 32).countP (fun i => v.testBit i)

/-- `bitcount64` (lines 142–145): popcount of the low half plus popcount of the high
half, each half truncated to 32 bits by the `(unsigned)` casts. -/
def bitcount64 (b : Nat) : Nat :=
  popcount32 (b &&& 0xFFFFFFFF) + popcount32 ((b >>> 32) % 4294967296)

/-- Specification-side popcount: the number of set bits of a 64-bit value. -/
def setBitCount (b : Nat) : Nat :=
  (List.range 64).countP (fun i => b.testBit i)

/-- One iteration of the `get_statistics` loop (lines 154–166).  `pending` and
`loaded` are uint16 accumulators, so additions are taken modulo `2^16`; `maskbits -
bitcount` is computed with C integer promotion (exact even if `bitcount > 56`),
modelled by adding `2^16` before the subtraction. -/
def stat_step (pl : Nat × Nat) (gc : grid_cache) : Nat × Nat :=
  if gc.state = GridState.invalid then pl
  else if gc.state = GridState.diskwait then
    ((pl.1 + TERRAIN_GRID_BLOCK_MUL_X * TERRAIN_GRID_BLOCK_MUL_Y) % 65536, pl.2)
  else
    ((pl.1 + (TERRAIN_GRID_BLOCK_MUL_X * TERRAIN_GRID_BLOCK_MUL_Y + 65536
        - bitcount64 gc.grid.bitmap)) % 65536,
     (pl.2 + bitcount64 gc.grid.bitmap) % 65536)

/-- `get_statistics(pending, loaded)` (lines 150–167): fold the per-entry
contributions over the cache table, starting from `(0, 0)`. -/
def get_statistics (cache : List grid_cache) : Nat × Nat :=
  cache.foldl stat_step (0, 0)

/-- Specification-side pending contribution of one entry (claim C8's words):
`Invalid` nothing, `DiskWait` the full 56, `Valid`/`Dirty` `56 − popcount(bitmap)`. -/
def pend_contrib (gc : grid_cache) : Nat :=
  match gc.state with
  | .invalid => 0
  | .diskwait => 56
  | _ => 56 - setBitCount gc.grid.bitmap

/-- Specification-side loaded contribution of one entry (claim C8's words):
`Valid`/`Dirty` contribute `popcount(bitmap)`, others nothing. -/
def load_contrib (gc : grid_cache) : Nat :=
  match gc.state with
  | .invalid => 0
  | .diskwait => 0
  | _ => setBitCount gc.grid.bitmap

/-- External collaborators consumed by `send_request`, bundled as explicit inputs:
the millisecond clock, the AHRS position, `calculate_grid_info`, `location_offset`,
`find_grid` and the transmit-space query.  Within one tick the clock is read once
(the spec's ticks are synchronous and instantaneous). -/
structure Env where
  millis : Nat
  position : Option Location
  calc_grid_info : Location → grid_info
  location_offset : Location → Rat → Rat → Location
  find_grid : grid_info → grid_cache
  txspace : Nat

/-- The loop bounds of the fan-out: `for x = -1..1` (outer), `for y = -1..1`
(inner), row-major. -/
def fanout_xs : List Int := [-1, 0, 1]

/-- The 3×3 offset grid traversed by the fan-out loops, in source iteration order. -/
def fanout_deltas : List (Int × Int) :=
  fanout_xs.flatMap (fun x => fanout_xs.map (fun y => (x, y)))

/-- The displacement handed to `location_offset` for one loop iteration (lines
109–111): `x * TERRAIN_GRID_BLOCK_SIZE_X * 0.7f * grid_spacing` north and
`y * TERRAIN_GRID_BLOCK_SIZE_Y * 0.7f * grid_spacing` east; the float literal
`0.7f` is modelled as the rational `7/10`. -/
def fanout_offset (gsp : Nat) (d : Int × Int) : Rat × Rat :=
  ((d.1 : Rat) * (TERRAIN_GRID_BLOCK_SIZE_X : Nat) * (7 / 10 : Rat) * (gsp : Nat),
   (d.2 : Rat) * (TERRAIN_GRID_BLOCK_SIZE_Y : Nat) * (7 / 10 : Rat) * (gsp : Nat))

/-- Specification-side fan-out offsets (claim C3's words): the 8 compass neighbors
of the 3×3 grid, row-major, center excluded. -/
def neighbor_offsets (gsp : Nat) : List (Rat × Rat) :=
  (fanout_deltas.filter (fun d => d ≠ (0, 0))).map (fanout_offset gsp)

/-- Whether the fan-out attempt at offset `d` from `loc` issues a request. -/
def fanout_attempt (env : Env) (gsp : Nat) (loc : Location) (d : Int × Int) : Bool :=
  rm_acts (env.find_grid (env.calc_grid_info
    (env.location_offset loc (fanout_offset gsp d).1 (fanout_offset gsp d).2)))

/-- The fan-out loops of `send_request` (lines 106–118): walk the 3×3 offsets in
order, attempt `request_missing` on each offset's tile, and return at the first
issuance.  Also returns the displacements handed to `location_offset`, in order, as
the observable trace of the attempts. -/
def fanout_go (env : Env) (gsp last : Nat) (loc : Location) :
    List (Int × Int) → List (Rat × Rat) × Option TerrainRequestMsg × Nat
  | [] => ([], none, last)
  | d :: rest =>
    let ofs := fanout_offset gsp d
    let loc2 := env.location_offset loc ofs.1 ofs.2
    let info2 := env.calc_grid_info loc2
    let r := request_missing env.millis last gsp (env.find_grid info2)
    if r.sent then ([ofs], r.msg, r.last_ms)
    else
      let t := fanout_go env gsp last loc rest
      (ofs :: t.1, t.2.1, t.2.2)

/-- The cache scan of `send_request` (lines 121–127): every entry whose state
ordinal is at least `GRID_CACHE_VALID` is attempted in table order; stop at the
first issuance. -/
def scan_cache (now last gsp : Nat) : List grid_cache → Option TerrainRequestMsg × Nat
  | [] => (none, last)
  | gc :: rest =>
    if 2 ≤ state_ord gc.state then
      let r := request_missing now last gsp gc
      if r.sent then (r.msg, r.last_ms) else scan_cache now last gsp rest
    else scan_cache now last gsp rest

/-- Modelled from the spec: minimum TERRAIN_REPORT message size
(`MAVLINK_NUM_NON_PAYLOAD_BYTES + MAVLINK_MSG_ID_TERRAIN_REPORT_LEN`, from the
MAVLink headers, not under src/); only the comparison against the available
transmit space matters. -/
def TERRAIN_REPORT_MSG_SIZE : Nat := 8 + 22

/-- Everything `send_request` did this tick: the (at most one) data request sent,
whether a TERRAIN_REPORT was emitted, the resulting `last_request_time_ms`, the
cache table, whether the disk-IO hook ran, and the fan-out displacements tried. -/
structure SendResult where
  request : Option TerrainRequestMsg
  report : Bool
  last_request_time_ms : Nat
  cache : List grid_cache
  disk_io_ran : Bool
  offsets_tried : List (Rat × Rat)

/-- The request cascade of `send_request` once a position is known (lines 97–136):
attempt the current tile, the 3×3 fan-out, the cache scan, the current tile a
second time, and finally fall back to a TERRAIN_REPORT (emitted only if the
transport has buffer space, lines 186–198). -/
def send_request_body (env : Env) (s : TerrainState) (loc : Location) : SendResult :=
  let info := env.calc_grid_info loc
  let r1 := request_missing env.millis s.last_request_time_ms s.grid_spacing
    (env.find_grid info)
  if r1.sent then
    ⟨r1.msg, false, r1.last_ms, s.cache, true, []⟩
  else
    let f := fanout_go env s.grid_spacing s.last_request_time_ms loc fanout_deltas
    match f.2.1 with
    | some m => ⟨some m, false, f.2.2, s.cache, true, f.1⟩
    | none =>
      let sc := scan_cache env.millis s.last_request_time_ms s.grid_spacing s.cache
      match sc.1 with
      | some m => ⟨some m, false, sc.2, s.cache, true, f.1⟩
      | none =>
        let r2 := request_missing env.millis s.last_request_time_ms s.grid_spacing
          (env.find_grid info)
        if r2.sent then
          ⟨r2.msg, false, r2.last_ms, s.cache, true, f.1⟩
        else
          ⟨none, decide (TERRAIN_REPORT_MSG_SIZE ≤ env.txspace),
           s.last_request_time_ms, s.cache, true, f.1⟩

/-- `send_request(chan)` (lines 75–137): no-op when disabled; run the disk-IO hook;
pacing check against the last issuance; bail out without a position; otherwise run
the request cascade. -/
def send_request (env : Env) (s : TerrainState) : SendResult :=
  if s.enable = 0 then
    ⟨none, false, s.last_request_time_ms, s.cache, false, []⟩
  else if delta32 env.millis s.last_request_time_ms < 2000 then
    ⟨none, false, s.last_request_time_ms, s.cache, true, []⟩
  else
    match env.position with
    | none => ⟨none, false, s.last_request_time_ms, s.cache, true, []⟩
    | some loc => send_request_body env s loc

/-- The driver state after one `send_request` tick. -/
def state_after (s : TerrainState) (r : SendResult) : TerrainState :=
  { s with cache := r.cache, last_request_time_ms := r.last_request_time_ms }

/-- Number of data requests issued by one tick (0 or 1). -/
def req_count (r : SendResult) : Nat :=
  if r.request.isSome then 1 else 0

/-! Concrete fixtures used by witnesses and counterexamples. -/

/-- All-zero elevation matrix. -/
def hZero : Nat → Nat → Int := fun _ _ => 0

/-- A valid, empty (bitmap 0) cache entry at address (1, 2, 100). -/
def gcEmpty : grid_cache :=
  { grid := { lat := 1, lon := 2, spacing := 100, bitmap := 0, height := hZero }
    state := GridState.valid }

/-- A fully populated entry at address (1, 2, 100). -/
def gcFull : grid_cache :=
  { grid := { lat := 1, lon := 2, spacing := 100, bitmap := bitmap_mask, height := hZero }
    state := GridState.valid }

/-- An entry waiting on disk IO. -/
def gcDisk : grid_cache :=
  { grid := { lat := 1, lon := 2, spacing := 100, bitmap := 0, height := hZero }
    state := GridState.diskwait }

/-- A valid entry whose chunk-3 bit is already set. -/
def gcBit3 : grid_cache :=
  { grid := { lat := 1, lon := 2, spacing := 100, bitmap := 8, height := hZero }
    state := GridState.valid }

/-- An entry whose recorded spacing (50) differs from the global parameter (100). -/
def gcSpacing50 : grid_cache :=
  { grid := { lat := 1, lon := 2, spacing := 50, bitmap := 0, height := hZero }
    state := GridState.valid }

/-- A dirty entry with ten bitmap bits set. -/
def gcTen : grid_cache :=
  { grid := { lat := 1, lon := 2, spacing := 100, bitmap := 1023, height := hZero }
    state := GridState.dirty }

/-- A payload for chunk 3 of tile (1, 2, 100), all samples 5. -/
def pktBit3 : terrain_data_pkt :=
  { lat := 1, lon := 2, grid_spacing := 100, gridbit := 3, data := fun _ => 5 }

/-- A payload for chunk 3 of the diskwait entry's tile. -/
def pktBit5 : terrain_data_pkt :=
  { lat := 1, lon := 2, grid_spacing := 100, gridbit := 5, data := fun _ => 7 }

/-- A payload with an out-of-range chunk index (60 ≥ 56). -/
def pktOob : terrain_data_pkt :=
  { lat := 1, lon := 2, grid_spacing := 100, gridbit := 60, data := fun _ => 5 }

/-- A payload for chunk 0 whose samples (30000) violate the 1..20000 sample range. -/
def pktBig : terrain_data_pkt :=
  { lat := 1, lon := 2, grid_spacing := 100, gridbit := 0, data := fun _ => 30000 }

/-- An environment whose every tile lookup yields the incomplete entry `gcEmpty`. -/
def envOpen : Env :=
  { millis := 5000, position := some ⟨10, 20⟩,
    calc_grid_info := fun l => ⟨l.lat, l.lng⟩,
    location_offset := fun l _ _ => l,
    find_grid := fun _ => gcEmpty, txspace := 1000 }

/-- The same environment 1000 ms later. -/
def envOpen1 : Env := { envOpen with millis := 6000 }

/-- The same environment 2000 ms later. -/
def envOpen2 : Env := { envOpen with millis := 7000 }

/-- An environment where every tile is fully populated: nothing to request. -/
def envFull : Env := { envOpen with find_grid := fun _ => gcFull }

/-- Initial driver state: empty cache, never requested, enabled. -/
def st0 : TerrainState :=
  { cache := [], last_request_time_ms := 0, grid_spacing := 100, enable := 1 }

/-- A disabled state holding one incomplete tile. -/
def stDis : TerrainState :=
  { cache := [gcEmpty], last_request_time_ms := 0, grid_spacing := 100, enable := 0 }

/-! ### Popcount -/

/-- The two truncated 32-bit popcounts of `bitcount64` add up to the exact popcount
of the whole 64-bit word. -/
theorem bitcount64_eq_setBitCount (b : Nat) (hb : b < 2 ^ 64) :
    bitcount64 b = setBitCount b := by
  have h1 : b &&& 0xFFFFFFFF = b % 2 ^ 32 := by
    have hm : (0xFFFFFFFF : Nat) = 2 ^ 32 - 1 := by norm_num
    rw [hm, Nat.and_pow_two_sub_one_eq_mod]
  have hsh : b >>> 32 < 2 ^ 32 := by
    rw [Nat.shiftRight_eq_div_pow]
    refine Nat.div_lt_of_lt_mul ?_
    calc b < 2 ^ 64 := hb
    _ = 2 ^ 32 * 2 ^ 32 := by norm_num
  have h2 : (b >>> 32) % 4294967296 = b >>> 32 := by
    refine Nat.mod_eq_of_lt ?_
    calc b >>> 32 < 2 ^ 32 := hsh
    _ = 4294967296 := by norm_num
  unfold bitcount64 setBitCount popcount32
  rw [h1, h2]
  have h64 : (64 : Nat) = 32 + 32 := by norm_num
  rw [h64, List.range_add, List.countP_append, List.countP_map]
  congr 1
  all_goals refine List.countP_congr ?_
  all_goals intro i hi
  all_goals simp only [List.mem_range] at hi
  · simp only [Nat.testBit_mod_two_pow]
    simp [hi]

/-- A value within the 56-bit full mask has at most 56 set bits. -/
theorem setBitCount_le_56 (b : Nat) (hb : b < 2 ^ 56) : setBitCount b ≤ 56 := by
  unfold setBitCount
  have h64 : (64 : Nat) = 56 + 8 := by norm_num
  rw [h64, List.range_add, List.countP_append, List.countP_map]
  have hhi : List.countP ((fun i => b.testBit i) ∘ (56 + ·)) (List.range 8) = 0 := by
    refine List.countP_eq_zero.mpr ?_
    intro i _
    simp only [Function.comp]
    have : b < 2 ^ (56 + i) := lt_of_lt_of_le hb (Nat.pow_le_pow_right (by norm_num) (by omega))
    simp [Nat.testBit_lt_two_pow this]
  rw [hhi]
  have := List.countP_le_length (l := List.range 56) (p := fun i => b.testBit i)
  simpa using this

/-- C9: for every 64-bit value `b`, `bitcount64(b)` equals the number of set bits in
`b`: the popcounts of the low and high 32-bit halves sum to the popcount of the
whole word. -/
theorem claim_C9_bitcount64_full_width (b : Nat) (hb : b < 2 ^ 64) :
    bitcount64 b = setBitCount b :=
  bitcount64_eq_setBitCount b hb

/-- Witness for C9 at a value with bits in both halves. -/
theorem claim_C9_bitcount64_full_width_witness :
    (2 ^ 63 + 2 ^ 31 + 11 : Nat) < 2 ^ 64 ∧
    bitcount64 (2 ^ 63 + 2 ^ 31 + 11) = setBitCount (2 ^ 63 + 2 ^ 31 + 11) :=
  ⟨by norm_num, claim_C9_bitcount64_full_width _ (by norm_num)⟩

/-! ### Statistics -/

/-- A bitmap within the full mask counts with `bitcount64` exactly as with the exact
popcount. -/
theorem bitcount64_of_lt_mask (b : Nat) (hb : b < 2 ^ 56) :
    bitcount64 b = setBitCount b :=
  bitcount64_eq_setBitCount b (lt_trans hb (by norm_num))

/-- Sums of per-entry contributions bounded by 56 are bounded by 56 per entry. -/
theorem map_sum_le_56 (f : grid_cache → Nat) (l : List grid_cache)
    (h : ∀ gc ∈ l, f gc ≤ 56) : (l.map f).sum ≤ 56 * l.length := by
  induction l with
  | nil => simp
  | cons a t ih =>
    simp only [List.map_cons, List.sum_cons, List.length_cons]
    have ht := ih (fun gc hg => h gc (by simp [hg]))
    have ha := h a (by simp)
    omega

/-- The `get_statistics` fold, with the uint16 accumulators never wrapping as long
as the pending/loaded totals stay below 65536, computes the plain sums of the
per-entry contributions. -/
theorem get_statistics_fold (cache : List grid_cache) :
    ∀ acc : Nat × Nat,
    (∀ gc ∈ cache, gc.grid.bitmap < 2 ^ 56) →
    acc.1 + (cache.map pend_contrib).sum ≤ 65535 →
    acc.2 + (cache.map load_contrib).sum ≤ 65535 →
    cache.foldl stat_step acc
      = (acc.1 + (cache.map pend_contrib).sum, acc.2 + (cache.map load_contrib).sum) := by
  induction cache with
  | nil => intro acc _ _ _; simp
  | cons gc rest ih =>
    intro acc hb hp hl
    have hbgc : gc.grid.bitmap < 2 ^ 56 := hb gc (by simp)
    have hb' : ∀ g ∈ rest, g.grid.bitmap < 2 ^ 56 := fun g hg => hb g (by simp [hg])
    have hbc : bitcount64 gc.grid.bitmap = setBitCount gc.grid.bitmap :=
      bitcount64_of_lt_mask _ hbgc
    have hle : setBitCount gc.grid.bitmap ≤ 56 := setBitCount_le_56 _ hbgc
    simp only [List.map_cons, List.sum_cons] at hp hl ⊢
    simp only [List.foldl_cons]
    cases hst : gc.state with
    | invalid =>
      have e : stat_step acc gc = acc := by simp [stat_step, hst]
      have ep : pend_contrib gc = 0 := by simp [pend_contrib, hst]
      have el : load_contrib gc = 0 := by simp [load_contrib, hst]
      rw [ep] at hp
      rw [el] at hl
      rw [e, ep, el, ih acc hb' (by omega) (by omega)]
      simp
    | diskwait =>
      have e : stat_step acc gc = ((acc.1 + 56) % 65536, acc.2) := by
        simp [stat_step, hst, TERRAIN_GRID_BLOCK_MUL_X, TERRAIN_GRID_BLOCK_MUL_Y]
      have ep : pend_contrib gc = 56 := by simp [pend_contrib, hst]
      have el : load_contrib gc = 0 := by simp [load_contrib, hst]
      rw [ep] at hp
      rw [el] at hl
      have e2 : (acc.1 + 56) % 65536 = acc.1 + 56 := Nat.mod_eq_of_lt (by omega)
      rw [e, e2]
      have h1 : acc.1 + 56 + (rest.map pend_contrib).sum ≤ 65535 := by omega
      have h2 : acc.2 + (rest.map load_contrib).sum ≤ 65535 := by omega
      rw [ep, el, ih (acc.1 + 56, acc.2) hb' h1 h2]
      simp only [Prod.mk.injEq]
      constructor <;> omega
    | valid =>
      have e : stat_step acc gc =
          ((acc.1 + (56 + 65536 - bitcount64 gc.grid.bitmap)) % 65536,
           (acc.2 + bitcount64 gc.grid.bitmap) % 65536) := by
        simp [stat_step, hst, TERRAIN_GRID_BLOCK_MUL_X, TERRAIN_GRID_BLOCK_MUL_Y]
      have ep : pend_contrib gc = 56 - setBitCount gc.grid.bitmap := by
        simp [pend_contrib, hst]
      have el : load_contrib gc = setBitCount gc.grid.bitmap := by
        simp [load_contrib, hst]
      rw [ep] at hp
      rw [el] at hl
      have e2 : (acc.1 + (56 + 65536 - bitcount64 gc.grid.bitmap)) % 65536
          = acc.1 + (56 - setBitCount gc.grid.bitmap) := by
        rw [hbc]; omega
      have e3 : (acc.2 + bitcount64 gc.grid.bitmap) % 65536
          = acc.2 + setBitCount gc.grid.bitmap := by
        rw [hbc]; omega
      rw [e, e2, e3]
      have h1 : acc.1 + (56 - setBitCount gc.grid.bitmap)
          + (rest.map pend_contrib).sum ≤ 65535 := by omega
      have h2 : acc.2 + setBitCount gc.grid.bitmap
          + (rest.map load_contrib).sum ≤ 65535 := by omega
      rw [ep, el,
        ih (acc.1 + (56 - setBitCount gc.grid.bitmap), acc.2 + setBitCount gc.grid.bitmap)
          hb' h1 h2]
      simp only [Prod.mk.injEq]
      constructor <;> omega
    | dirty =>
      have e : stat_step acc gc =
          ((acc.1 + (56 + 65536 - bitcount64 gc.grid.bitmap)) % 65536,
           (acc.2 + bitcount64 gc.grid.bitmap) % 65536) := by
        simp [stat_step, hst, TERRAIN_GRID_BLOCK_MUL_X, TERRAIN_GRID_BLOCK_MUL_Y]
      have ep : pend_contrib gc = 56 - setBitCount gc.grid.bitmap := by
        simp [pend_contrib, hst]
      have el : load_contrib gc = setBitCount gc.grid.bitmap := by
        simp [load_contrib, hst]
      rw [ep] at hp
      rw [el] at hl
      have e2 : (acc.1 + (56 + 65536 - bitcount64 gc.grid.bitmap)) % 65536
          = acc.1 + (56 - setBitCount gc.grid.bitmap) := by
        rw [hbc]; omega
      have e3 : (acc.2 + bitcount64 gc.grid.bitmap) % 65536
          = acc.2 + setBitCount gc.grid.bitmap := by
        rw [hbc]; omega
      rw [e, e2, e3]
      have h1 : acc.1 + (56 - setBitCount gc.grid.bitmap)
          + (rest.map pend_contrib).sum ≤ 65535 := by omega
      have h2 : acc.2 + setBitCount gc.grid.bitmap
          + (rest.map load_contrib).sum ≤ 65535 := by omega
      rw [ep, el,
        ih (acc.1 + (56 - setBitCount gc.grid.bitmap), acc.2 + setBitCount gc.grid.bitmap)
          hb' h1 h2]
      simp only [Prod.mk.injEq]
      constructor <;> omega

/-- Every entry's pending contribution is at most 56. -/
theorem pend_contrib_le (gc : grid_cache) : pend_contrib gc ≤ 56 := by
  rcases h : gc.state <;> simp [pend_contrib, h]

/-- Every in-mask entry's loaded contribution is at most 56. -/
theorem load_contrib_le (gc : grid_cache) (hb : gc.grid.bitmap < 2 ^ 56) :
    load_contrib gc ≤ 56 := by
  have := setBitCount_le_56 gc.grid.bitmap hb
  rcases h : gc.state <;> simp [load_contrib, h] <;> omega

/-- C8: `get_statistics` sums per-entry contributions — Invalid entries nothing,
DiskWait entries 56 to pending, Valid/Dirty entries `popcount(bitmap)` to loaded and
`56 − popcount(bitmap)` to pending; an all-Invalid cache yields `(0, 0)` and a
single Dirty tile with 10 set bits yields `loaded = 10, pending = 46`.  The uint16
accumulators cannot wrap because the table holds at most 12 entries of at most 56
sub-chunks. -/
theorem claim_C8_get_statistics (cache : List grid_cache)
    (hlen : cache.length ≤ TERRAIN_GRID_BLOCK_CACHE_SIZE)
    (hb : ∀ gc ∈ cache, gc.grid.bitmap < 2 ^ 56) :
    get_statistics cache = ((cache.map pend_contrib).sum, (cache.map load_contrib).sum)
    ∧ ((∀ gc ∈ cache, gc.state = GridState.invalid) → get_statistics cache = (0, 0))
    ∧ (∀ gc : grid_cache, gc.state = GridState.dirty → gc.grid.bitmap < 2 ^ 56 →
        setBitCount gc.grid.bitmap = 10 → get_statistics [gc] = (46, 10)) := by
  have hlen' : cache.length ≤ 12 := by
    simpa [TERRAIN_GRID_BLOCK_CACHE_SIZE] using hlen
  have hpsum : (cache.map pend_contrib).sum ≤ 672 := by
    have := map_sum_le_56 pend_contrib cache (fun gc _ => pend_contrib_le gc)
    have : (cache.map pend_contrib).sum ≤ 56 * cache.length := this
    omega
  have hlsum : (cache.map load_contrib).sum ≤ 672 := by
    have := map_sum_le_56 load_contrib cache (fun gc hg => load_contrib_le gc (hb gc hg))
    omega
  have hmain : get_statistics cache
      = ((cache.map pend_contrib).sum, (cache.map load_contrib).sum) := by
    have := get_statistics_fold cache (0, 0) hb (by simpa using by omega) (by simpa using by omega)
    simpa [get_statistics] using this
  refine ⟨hmain, ?_, ?_⟩
  · intro hall
    rw [hmain]
    have hp0 : (cache.map pend_contrib).sum = 0 := by
      refine List.sum_eq_zero ?_
      intro x hx
      obtain ⟨gc, hgc, rfl⟩ := List.mem_map.mp hx
      simp [pend_contrib, hall gc hgc]
    have hl0 : (cache.map load_contrib).sum = 0 := by
      refine List.sum_eq_zero ?_
      intro x hx
      obtain ⟨gc, hgc, rfl⟩ := List.mem_map.mp hx
      simp [load_contrib, hall gc hgc]
    rw [hp0, hl0]
  · intro gc hst hbm hpc
    have := get_statistics_fold [gc] (0, 0) (by simpa using hbm)
      (by simp [pend_contrib, hst, hpc]) (by simp [load_contrib, hst, hpc])
    simp only [List.map_cons, List.map_nil, List.sum_cons, List.sum_nil] at this
    simp [get_statistics] at this ⊢
    rw [this]
    simp [pend_contrib, load_contrib, hst, hpc]

/-- Witness for C8: the dirty ten-bit tile from the fixtures. -/
theorem claim_C8_get_statistics_witness :
    gcTen.state = GridState.dirty ∧ setBitCount gcTen.grid.bitmap = 10 ∧
    get_statistics [gcTen] = (46, 10) :=
  ⟨rfl, by decide,
    (claim_C8_get_statistics [gcTen] (by decide) (by decide)).2.2 gcTen rfl
      (by decide) (by decide)⟩

/-! ### Chunk ingestion -/

/-- One row of the sample-copy: folding the inner loop's point updates writes the
cells `(ixx, iy)..(ixx, iy+n-1)` and nothing else. -/
theorem foldl_upd2_col (h : Nat → Nat → Int) (ixx iy : Nat) (f : Nat → Int) :
    ∀ (n a b : Nat),
    ((List.range n).foldl (fun h y => upd2 h ixx (iy + y) (f y)) h) a b
      = if a = ixx ∧ iy ≤ b ∧ b < iy + n then f (b - iy) else h a b := by
  intro n
  induction n with
  | zero =>
    intro a b
    simp only [List.range_zero, List.foldl_nil]
    rw [if_neg (by omega)]
  | succ n ih =>
    intro a b
    rw [List.range_succ, List.foldl_append]
    simp only [List.foldl_cons, List.foldl_nil, upd2]
    by_cases hc : a = ixx ∧ b = iy + n
    · rw [if_pos hc, if_pos (by omega)]
      congr 1
      omega
    · rw [if_neg hc, ih]
      by_cases hc2 : a = ixx ∧ iy ≤ b ∧ b < iy + n
      · rw [if_pos hc2, if_pos (by omega)]
      · rw [if_neg hc2, if_neg (by omega)]

/-- The stacked rows of the sample-copy loops: the first `n` rows of the 4-wide
rectangle hold their samples, every other cell is untouched. -/
theorem foldl_chunk_rows (h : Nat → Nat → Int) (ix iy : Nat) (d : Nat → Int) :
    ∀ (n a b : Nat),
    ((List.range n).foldl
      (fun h x => (List.range 4).foldl
        (fun h y => upd2 h (ix + x) (iy + y) (d (x * 4 + y))) h) h) a b
      = if ix ≤ a ∧ a < ix + n ∧ iy ≤ b ∧ b < iy + 4
        then d ((a - ix) * 4 + (b - iy))
        else h a b := by
  intro n
  induction n with
  | zero =>
    intro a b
    simp only [List.range_zero, List.foldl_nil]
    rw [if_neg (by omega)]
  | succ n ih =>
    intro a b
    rw [List.range_succ n, List.foldl_append]
    simp only [List.foldl_cons, List.foldl_nil]
    rw [foldl_upd2_col]
    by_cases hc : a = ix + n ∧ iy ≤ b ∧ b < iy + 4
    · rw [if_pos hc, if_pos (by omega)]
      congr 1
      omega
    · rw [if_neg hc, ih]
      by_cases hc2 : ix ≤ a ∧ a < ix + n ∧ iy ≤ b ∧ b < iy + 4
      · rw [if_pos hc2, if_pos (by omega)]
      · rw [if_neg hc2, if_neg (by omega)]

/-- Extensional description of the 4×4 sample-copy loops: a cell inside the written
rectangle receives its sample verbatim, every other cell is untouched. -/
theorem chunk_write_apply (h : Nat → Nat → Int) (ix iy : Nat) (d : Nat → Int)
    (a b : Nat) :
    chunk_write h ix iy d a b =
      if ix ≤ a ∧ a < ix + 4 ∧ iy ≤ b ∧ b < iy + 4
      then d ((a - ix) * 4 + (b - iy))
      else h a b := by
  simp only [chunk_write, TERRAIN_GRID_MAVLINK_SIZE]
  exact foldl_chunk_rows h ix iy d 4 a b

/-- The lookup loop applies the chunk to the first matching entry and leaves every
other entry untouched. -/
theorem apply_to_cache_first (pkt : terrain_data_pkt) (pre post : List grid_cache)
    (gc : grid_cache) (hpre : ∀ gc' ∈ pre, pmatchb pkt gc' = false)
    (hgc : pmatchb pkt gc = true) :
    apply_to_cache pkt (pre ++ gc :: post) = pre ++ apply_chunk pkt gc :: post := by
  induction pre with
  | nil => simp [apply_to_cache, hgc]
  | cons p t ih =>
    have h0 : pmatchb pkt p = false := hpre p (by simp)
    simp only [List.cons_append, apply_to_cache, h0, Bool.false_eq_true, if_false]
    exact congrArg (fun l => p :: l) (ih (fun g hg => hpre g (by simp [hg])))

/-- When no entry matches, the lookup loop leaves the whole table untouched. -/
theorem apply_to_cache_none (pkt : terrain_data_pkt) (cache : List grid_cache)
    (h : ∀ gc ∈ cache, pmatchb pkt gc = false) :
    apply_to_cache pkt cache = cache := by
  induction cache with
  | nil => rfl
  | cons gc rest ih =>
    have h0 : pmatchb pkt gc = false := h gc (by simp)
    simp only [apply_to_cache, h0, Bool.false_eq_true, if_false]
    rw [ih (fun g hg => h g (by simp [hg]))]

/-- C1: a payload whose chunk index is not below 56 matches no entry (the match
condition contains `gridbit < 56`), so it is discarded before any array access and
no tile state changes; for an in-range chunk index every one of the 4×4 write
positions derived from `idx_x`/`idx_y` lies inside the 28×32 tile matrix. -/
theorem claim_C1_chunk_index_safety :
    (∀ (pkt : terrain_data_pkt) (s : TerrainState), 56 ≤ pkt.gridbit →
      handle_terrain_data pkt s = s)
    ∧ (∀ gb x y : Nat, gb < 56 →
        x < TERRAIN_GRID_MAVLINK_SIZE → y < TERRAIN_GRID_MAVLINK_SIZE →
        idx_x gb + x < TERRAIN_GRID_BLOCK_SIZE_X ∧
        idx_y gb + y < TERRAIN_GRID_BLOCK_SIZE_Y) := by
  constructor
  · intro pkt s hgb
    have hnone : ∀ gc, pmatchb pkt gc = false := by
      intro gc
      simp only [pmatchb, decide_eq_false_iff_not]
      rintro ⟨-, -, -, hlt⟩
      omega
    have : apply_to_cache pkt s.cache = s.cache :=
      apply_to_cache_none pkt s.cache (fun gc _ => hnone gc)
    simp [handle_terrain_data, this]
  · intro gb x y h1 h2 h3
    simp only [idx_x, idx_y, TERRAIN_GRID_MAVLINK_SIZE, TERRAIN_GRID_BLOCK_MUL_X,
      TERRAIN_GRID_BLOCK_MUL_Y, TERRAIN_GRID_BLOCK_SIZE_X, TERRAIN_GRID_BLOCK_SIZE_Y]
      at h2 h3 ⊢
    omega

/-- Witness for C1: the out-of-range payload leaves the one-entry state untouched,
and the largest in-range chunk index still writes inside the matrix. -/
theorem claim_C1_chunk_index_safety_witness :
    (56 ≤ pktOob.gridbit ∧ handle_terrain_data pktOob stDis = stDis)
    ∧ (idx_x 55 + 3 < TERRAIN_GRID_BLOCK_SIZE_X ∧
       idx_y 55 + 3 < TERRAIN_GRID_BLOCK_SIZE_Y) :=
  ⟨⟨by decide, claim_C1_chunk_index_safety.1 pktOob stDis (by decide)⟩,
   claim_C1_chunk_index_safety.2 55 3 3 (by decide) (by decide) (by decide)⟩

/-- C2 counterexample: ingestion of a chunk whose bit is already set still moves a
`Valid` entry to `Dirty` (the claim says the transition happens exactly on a
previously-unset bit), and ingestion moves a `DiskWait` entry to `Dirty` (the claim
says ingestion never transitions out of `DiskWait`). -/
theorem claim_C2_state_transition_cex :
    (gcBit3.state = GridState.valid ∧ gcBit3.grid.bitmap.testBit 3 = true ∧
      state_at (apply_to_cache pktBit3 [gcBit3]) 0 = GridState.dirty)
    ∧ (gcDisk.state = GridState.diskwait ∧
      state_at (apply_to_cache pktBit5 [gcDisk]) 0 = GridState.dirty) := by
  exact ⟨⟨rfl, by decide, by decide⟩, ⟨rfl, by decide⟩⟩

/-- C2 (amended): successful ingestion sets the matched entry's state to `Dirty`
unconditionally — whatever its prior state (including `DiskWait`) and whether or
not the bitmap bit was previously set; a payload matching no entry (in particular
any out-of-range chunk index) changes no state. -/
theorem claim_C2_ingestion_always_dirty :
    (∀ (pkt : terrain_data_pkt) (gc : grid_cache) (rest : List grid_cache),
      pmatchb pkt gc = true →
      apply_to_cache pkt (gc :: rest) = apply_chunk pkt gc :: rest)
    ∧ (∀ (pkt : terrain_data_pkt) (gc : grid_cache),
      (apply_chunk pkt gc).state = GridState.dirty)
    ∧ (∀ (pkt : terrain_data_pkt) (gc : grid_cache) (rest : List grid_cache),
      pmatchb pkt gc = false →
      apply_to_cache pkt (gc :: rest) = gc :: apply_to_cache pkt rest)
    ∧ (∀ (pkt : terrain_data_pkt) (cache : List grid_cache),
      (∀ gc ∈ cache, pmatchb pkt gc = false) → apply_to_cache pkt cache = cache) := by
  refine ⟨?_, ?_, ?_, ?_⟩
  · intro pkt gc rest h
    simp [apply_to_cache, h]
  · intro pkt gc
    rfl
  · intro pkt gc rest h
    simp [apply_to_cache, h]
  · intro pkt cache h
    exact apply_to_cache_none pkt cache h

/-- Witness for C2 (amended) on the fixture entries. -/
theorem claim_C2_ingestion_always_dirty_witness :
    apply_to_cache pktBit3 [gcBit3] = [apply_chunk pktBit3 gcBit3] ∧
    (apply_chunk pktBit3 gcBit3).state = GridState.dirty ∧
    apply_to_cache pktOob [gcBit3] = [gcBit3] :=
  ⟨claim_C2_ingestion_always_dirty.1 pktBit3 gcBit3 [] (by decide),
   claim_C2_ingestion_always_dirty.2.1 pktBit3 gcBit3,
   claim_C2_ingestion_always_dirty.2.2.2 pktOob [gcBit3] (by decide)⟩

/-- C10: once a payload passes the lookup and chunk-index checks, all 16 samples
are written into the matrix verbatim and the chunk's bit is set; nothing clamps a
value, skips a cell or aborts — there is no sample-range condition anywhere in the
hypotheses (`ASSERT_RANGE` is a debug-only assertion with no release-mode
effect). -/
theorem claim_C10_samples_verbatim (pkt : terrain_data_pkt)
    (pre post : List grid_cache) (gc : grid_cache)
    (hpre : ∀ gc' ∈ pre, pmatchb pkt gc' = false) (hgc : pmatchb pkt gc = true) :
    apply_to_cache pkt (pre ++ gc :: post) = pre ++ apply_chunk pkt gc :: post
    ∧ (∀ x y : Nat, x < 4 → y < 4 →
        (apply_chunk pkt gc).grid.height (idx_x pkt.gridbit + x) (idx_y pkt.gridbit + y)
          = pkt.data (x * 4 + y))
    ∧ (apply_chunk pkt gc).grid.bitmap = gc.grid.bitmap ||| (1 <<< pkt.gridbit)
    ∧ (apply_chunk pkt gc).grid.bitmap.testBit pkt.gridbit = true := by
  refine ⟨apply_to_cache_first pkt pre post gc hpre hgc, ?_, rfl, ?_⟩
  · intro x y hx hy
    show chunk_write gc.grid.height (idx_x pkt.gridbit) (idx_y pkt.gridbit) pkt.data _ _ = _
    rw [chunk_write_apply, if_pos ⟨Nat.le_add_right _ _, by omega, Nat.le_add_right _ _, by omega⟩]
    congr 1
    omega
  · show (gc.grid.bitmap ||| (1 <<< pkt.gridbit)).testBit pkt.gridbit = true
    rw [Nat.testBit_lor]
    have h1 : (1 <<< pkt.gridbit).testBit pkt.gridbit = true := by
      rw [Nat.shiftLeft_eq, one_mul]
      exact Nat.testBit_two_pow_self
    simp [h1]

/-- Witness for C10: a payload whose samples (30000) are far outside the 1..20000
range is still applied verbatim. -/
theorem claim_C10_samples_verbatim_witness :
    (apply_chunk pktBig gcEmpty).grid.height 0 0 = 30000 ∧
    (apply_chunk pktBig gcEmpty).grid.bitmap.testBit 0 = true := by
  have h := claim_C10_samples_verbatim pktBig [] [] gcEmpty (by simp) (by decide)
  exact ⟨h.2.1 0 0 (by decide) (by decide), h.2.2.2⟩

/-! ### Ingestion algebra -/

/-- Applying a chunk does not change the entry's address, so the lookup condition
is invariant under chunk application. -/
theorem pmatchb_apply_chunk (q p : terrain_data_pkt) (gc : grid_cache) :
    pmatchb q (apply_chunk p gc) = pmatchb q gc := rfl

/-- Applying an identical chunk twice equals applying it once: the second pass
writes the same samples over themselves, re-ORs the same bit and re-sets `Dirty`. -/
theorem chunk_write_idem (h : Nat → Nat → Int) (ix iy : Nat) (d : Nat → Int) :
    chunk_write (chunk_write h ix iy d) ix iy d = chunk_write h ix iy d := by
  funext a b
  by_cases hc : ix ≤ a ∧ a < ix + 4 ∧ iy ≤ b ∧ b < iy + 4
  · rw [chunk_write_apply, if_pos hc, chunk_write_apply, if_pos hc]
  · rw [chunk_write_apply, if_neg hc]

/-- Idempotence of one chunk application on one entry. -/
theorem apply_chunk_idem (p : terrain_data_pkt) (gc : grid_cache) :
    apply_chunk p (apply_chunk p gc) = apply_chunk p gc := by
  obtain ⟨⟨glat, glon, gsp, gbm, gh⟩, gst⟩ := gc
  unfold apply_chunk
  dsimp only
  simp only [grid_cache.mk.injEq, grid_block.mk.injEq]
  refine ⟨⟨trivial, trivial, trivial, ?_, chunk_write_idem _ _ _ _⟩, trivial⟩
  rw [Nat.or_assoc, Nat.or_self]

/-- Idempotence of one payload over the whole cache table. -/
theorem apply_to_cache_idem (p : terrain_data_pkt) :
    ∀ cache : List grid_cache,
    apply_to_cache p (apply_to_cache p cache) = apply_to_cache p cache := by
  intro cache
  induction cache with
  | nil => rfl
  | cons gc rest ih =>
    by_cases h : pmatchb p gc = true
    · simp [apply_to_cache, h, pmatchb_apply_chunk, apply_chunk_idem]
    · have hf : pmatchb p gc = false := by
        revert h; cases pmatchb p gc <;> simp
      simp only [apply_to_cache, hf, Bool.false_eq_true, if_false]
      rw [ih]

/-- A delivery sequence whose payloads all match the entry at position
`pre.length` (and none of the earlier entries) folds its chunk applications onto
that entry and touches nothing else. -/
theorem apply_all_first (pkts : List terrain_data_pkt) :
    ∀ (pre post : List grid_cache) (gc : grid_cache),
    (∀ p ∈ pkts, pmatchb p gc = true) →
    (∀ p ∈ pkts, ∀ g ∈ pre, pmatchb p g = false) →
    apply_all pkts (pre ++ gc :: post)
      = pre ++ (pkts.foldl (fun g p => apply_chunk p g) gc) :: post := by
  induction pkts with
  | nil => intro pre post gc _ _; rfl
  | cons p ps ih =>
    intro pre post gc hgc hpre
    have h1 : apply_to_cache p (pre ++ gc :: post) = pre ++ apply_chunk p gc :: post :=
      apply_to_cache_first p pre post gc (hpre p (by simp)) (hgc p (by simp))
    show apply_all ps (apply_to_cache p (pre ++ gc :: post)) = _
    rw [h1]
    rw [ih pre post (apply_chunk p gc)
      (fun q hq => by rw [pmatchb_apply_chunk]; exact hgc q (by simp [hq]))
      (fun q hq g hg => hpre q (by simp [hq]) g hg)]
    rfl

/-- Folding the bit-OR over a payload list from any accumulator factors through
`bits_union`. -/
theorem bits_union_acc (pkts : List terrain_data_pkt) :
    ∀ acc : Nat,
    pkts.foldl (fun m p => m ||| (1 <<< p.gridbit)) acc = acc ||| bits_union pkts := by
  induction pkts with
  | nil => intro acc; simp [bits_union]
  | cons p ps ih =>
    intro acc
    show ps.foldl _ (acc ||| (1 <<< p.gridbit)) = acc ||| bits_union (p :: ps)
    rw [ih (acc ||| (1 <<< p.gridbit))]
    show _ = acc ||| ps.foldl _ (0 ||| (1 <<< p.gridbit))
    rw [ih (0 ||| (1 <<< p.gridbit)), Nat.zero_or, Nat.or_assoc]

/-- The union of the payloads' chunk-index bits does not depend on delivery
order. -/
theorem bits_union_perm (pkts1 pkts2 : List terrain_data_pkt)
    (h : pkts1.Perm pkts2) : bits_union pkts1 = bits_union pkts2 := by
  induction h with
  | nil => rfl
  | cons x h ih =>
    show List.foldl _ (0 ||| _) _ = List.foldl _ (0 ||| _) _
    rw [bits_union_acc, bits_union_acc, ih]
  | swap x y l =>
    show List.foldl _ ((0 ||| _) ||| _) _ = List.foldl _ ((0 ||| _) ||| _) _
    rw [bits_union_acc, bits_union_acc, Nat.zero_or, Nat.zero_or,
      Nat.or_comm (1 <<< y.gridbit) (1 <<< x.gridbit)]
  | trans _ _ ih1 ih2 => rw [ih1, ih2]

/-- The bitmap after folding chunk applications is the original bitmap joined with
the union of the applied bits. -/
theorem foldl_apply_chunk_bitmap (pkts : List terrain_data_pkt) :
    ∀ gc : grid_cache,
    (pkts.foldl (fun g p => apply_chunk p g) gc).grid.bitmap
      = gc.grid.bitmap ||| bits_union pkts := by
  induction pkts with
  | nil => intro gc; simp [bits_union]
  | cons p ps ih =>
    intro gc
    show (ps.foldl _ (apply_chunk p gc)).grid.bitmap = _
    rw [ih (apply_chunk p gc)]
    show (gc.grid.bitmap ||| (1 <<< p.gridbit)) ||| bits_union ps
      = gc.grid.bitmap ||| List.foldl _ (0 ||| (1 <<< p.gridbit)) ps
    rw [bits_union_acc, Nat.zero_or, Nat.or_assoc]

/-- `bitmap_at` reads exactly the entry sitting between `pre` and `post`. -/
theorem bitmap_at_append (pre : List grid_cache) :
    ∀ (gc : grid_cache) (post : List grid_cache),
    bitmap_at (pre ++ gc :: post) pre.length = gc.grid.bitmap := by
  induction pre with
  | nil => intro gc post; rfl
  | cons p t ih => intro gc post; exact ih gc post

/-- C7: for any sequence of valid payloads (matching address, chunk index < 56)
delivered to the same initially-empty tile, the final bitmap is the union of the
payloads' chunk-index bits, identical for any delivery order; and delivering a
payload twice leaves the whole state (bitmap and matrix) as after the first
delivery. -/
theorem claim_C7_ingestion_order_independent :
    (∀ (pre post : List grid_cache) (gc : grid_cache)
       (pkts1 pkts2 : List terrain_data_pkt),
      pkts1.Perm pkts2 →
      (∀ p ∈ pkts1, pmatchb p gc = true) →
      (∀ p ∈ pkts1, ∀ g ∈ pre, pmatchb p g = false) →
      gc.grid.bitmap = 0 →
      bitmap_at (apply_all pkts1 (pre ++ gc :: post)) pre.length = bits_union pkts1 ∧
      bitmap_at (apply_all pkts2 (pre ++ gc :: post)) pre.length = bits_union pkts1)
    ∧ (∀ (p : terrain_data_pkt) (s : TerrainState),
      handle_terrain_data p (handle_terrain_data p s) = handle_terrain_data p s) := by
  constructor
  · intro pre post gc pkts1 pkts2 hperm hgc hpre hbm
    have key : ∀ pkts : List terrain_data_pkt,
        (∀ p ∈ pkts, pmatchb p gc = true) →
        (∀ p ∈ pkts, ∀ g ∈ pre, pmatchb p g = false) →
        bitmap_at (apply_all pkts (pre ++ gc :: post)) pre.length = bits_union pkts := by
      intro pkts h1 h2
      rw [apply_all_first pkts pre post gc h1 h2, bitmap_at_append,
        foldl_apply_chunk_bitmap, hbm, Nat.zero_or]
    refine ⟨key pkts1 hgc hpre, ?_⟩
    rw [key pkts2 (fun p hp => hgc p (hperm.mem_iff.mpr hp))
      (fun p hp => hpre p (hperm.mem_iff.mpr hp))]
    exact (bits_union_perm pkts1 pkts2 hperm).symm
  · intro p s
    simp [handle_terrain_data, apply_to_cache_idem]

/-- Witness for C7: two deliveries of chunks 3 and 5 in either order fill the same
two bits of the empty tile, and re-delivering chunk 3 is a no-op. -/
theorem claim_C7_ingestion_order_independent_witness :
    (bitmap_at (apply_all [pktBit3, pktBit5] [gcEmpty]) 0 = bits_union [pktBit3, pktBit5] ∧
     bitmap_at (apply_all [pktBit5, pktBit3] [gcEmpty]) 0 = bits_union [pktBit3, pktBit5]) ∧
    handle_terrain_data pktBit3 (handle_terrain_data pktBit3 stDis)
      = handle_terrain_data pktBit3 stDis :=
  ⟨claim_C7_ingestion_order_independent.1 [] [gcEmpty] gcEmpty
      [pktBit3, pktBit5] [pktBit5, pktBit3]
      (List.Perm.swap pktBit5 pktBit3 []) (by decide) (by simp) rfl,
   claim_C7_ingestion_order_independent.2 pktBit3 stDis⟩

/-! ### Per-entry request eligibility -/

/-- The Bool returned by `request_missing` coincides with the eligibility
predicate. -/
theorem request_missing_sent (now last gsp : Nat) (gc : grid_cache) :
    (request_missing now last gsp gc).sent = rm_acts gc := by
  unfold request_missing rm_acts
  by_cases h1 : gc.state = GridState.diskwait
  · simp [h1]
  · by_cases h2 : gc.grid.bitmap &&& bitmap_mask = bitmap_mask
    · simp [h1, h2]
    · simp [h1, h2]

/-- A sent request stamps `last_request_time_ms` with the current time. -/
theorem request_missing_sent_last (now last gsp : Nat) (gc : grid_cache)
    (h : (request_missing now last gsp gc).sent = true) :
    (request_missing now last gsp gc).last_ms = now := by
  unfold request_missing at h ⊢
  split_ifs at h ⊢
  all_goals simp_all

/-- A sent request carries a message. -/
theorem request_missing_sent_msg (now last gsp : Nat) (gc : grid_cache)
    (h : (request_missing now last gsp gc).sent = true) :
    (request_missing now last gsp gc).msg.isSome = true := by
  unfold request_missing at h ⊢
  split_ifs at h ⊢
  all_goals simp_all

/-- C5 counterexample: the sent request does not carry the entry's recorded
spacing — for an entry with spacing 50 under a global `grid_spacing` of 100, the
request carries 100. -/
theorem claim_C5_request_spacing_cex :
    gcSpacing50.grid.spacing = 50 ∧
    (request_missing 5000 0 100 gcSpacing50).msg.map (fun m => m.spacing) = some 100 :=
  ⟨rfl, by decide⟩

/-- C5 (amended): `request_missing` returns "nothing to do" (no message, timestamp
unchanged) exactly when the entry is in `DiskWait` or its bitmap is full; otherwise
it sends one request carrying the entry's lat/lon, the *global* grid-spacing
parameter (not the entry's recorded spacing) and the missing mask, and stamps the
current time; in particular a full bitmap always yields "nothing to do". -/
theorem claim_C5_request_missing_contract (now last gsp : Nat) (gc : grid_cache) :
    ((request_missing now last gsp gc).sent = false ↔
      (gc.state = GridState.diskwait ∨ gc.grid.bitmap &&& bitmap_mask = bitmap_mask))
    ∧ ((request_missing now last gsp gc).sent = false →
        request_missing now last gsp gc = ⟨false, none, last⟩)
    ∧ ((request_missing now last gsp gc).sent = true →
        request_missing now last gsp gc
          = ⟨true, some ⟨gc.grid.lat, gc.grid.lon, gsp,
              bitmap_mask &&& (UINT64_MAX ^^^ gc.grid.bitmap)⟩, now⟩)
    ∧ (gc.grid.bitmap &&& bitmap_mask = bitmap_mask →
        (request_missing now last gsp gc).sent = false) := by
  unfold request_missing
  by_cases h1 : gc.state = GridState.diskwait
  · simp [h1]
  · by_cases h2 : gc.grid.bitmap &&& bitmap_mask = bitmap_mask
    · simp [h1, h2]
    · simp [h1, h2]

/-- Witness for C5 (amended): the full tile never requests, the empty tile
requests with the full missing mask and a fresh timestamp. -/
theorem claim_C5_request_missing_contract_witness :
    (request_missing 5000 0 100 gcFull).sent = false ∧
    request_missing 5000 0 100 gcFull = ⟨false, none, 0⟩ ∧
    request_missing 5000 0 100 gcEmpty
      = ⟨true, some ⟨1, 2, 100, bitmap_mask &&& (UINT64_MAX ^^^ 0)⟩, 5000⟩ :=
  ⟨(claim_C5_request_missing_contract 5000 0 100 gcFull).2.2.2 (by decide),
   (claim_C5_request_missing_contract 5000 0 100 gcFull).2.1
     ((claim_C5_request_missing_contract 5000 0 100 gcFull).2.2.2 (by decide)),
   (claim_C5_request_missing_contract 5000 0 100 gcEmpty).2.2.1 (by decide)⟩

/-! ### Scheduler pacing -/

/-- When the fan-out issues a request, its resulting timestamp is the current
time. -/
theorem fanout_go_last (env : Env) (gsp last : Nat) (loc : Location) :
    ∀ ds : List (Int × Int),
    (fanout_go env gsp last loc ds).2.1.isSome = true →
    (fanout_go env gsp last loc ds).2.2 = env.millis := by
  intro ds
  induction ds with
  | nil => intro h; simp [fanout_go] at h
  | cons d rest ih =>
    intro h
    unfold fanout_go at h ⊢
    cases hs : (request_missing env.millis last gsp (env.find_grid (env.calc_grid_info
        (env.location_offset loc (fanout_offset gsp d).1 (fanout_offset gsp d).2)))).sent with
    | true =>
      simp only [hs, if_true] at h ⊢
      exact request_missing_sent_last _ _ _ _ hs
    | false =>
      simp only [hs, Bool.false_eq_true, if_false] at h ⊢
      exact ih h

/-- When the cache scan issues a request, its resulting timestamp is the current
time. -/
theorem scan_cache_last (now last gsp : Nat) :
    ∀ cache : List grid_cache,
    (scan_cache now last gsp cache).1.isSome = true →
    (scan_cache now last gsp cache).2 = now := by
  intro cache
  induction cache with
  | nil => intro h; simp [scan_cache] at h
  | cons gc rest ih =>
    intro h
    unfold scan_cache at h ⊢
    by_cases hord : 2 ≤ state_ord gc.state
    · simp only [hord, if_true] at h ⊢
      cases hs : (request_missing now last gsp gc).sent with
      | true =>
        simp only [hs, if_true] at h ⊢
        exact request_missing_sent_last _ _ _ _ hs
      | false =>
        simp only [hs, Bool.false_eq_true, if_false] at h ⊢
        exact ih h
    · simp only [hord, if_false] at h ⊢
      exact ih h

/-- When the request cascade issues a request, the resulting timestamp is the
current time. -/
theorem send_request_body_stamps (env : Env) (s : TerrainState) (loc : Location)
    (h : (send_request_body env s loc).request.isSome = true) :
    (send_request_body env s loc).last_request_time_ms = env.millis := by
  unfold send_request_body at h ⊢
  cases hs1 : (request_missing env.millis s.last_request_time_ms s.grid_spacing
      (env.find_grid (env.calc_grid_info loc))).sent with
  | true =>
    simp only [hs1, if_true] at h ⊢
    exact request_missing_sent_last _ _ _ _ hs1
  | false =>
    simp only [hs1, Bool.false_eq_true, if_false] at h ⊢
    cases hf : (fanout_go env s.grid_spacing s.last_request_time_ms loc fanout_deltas).2.1 with
    | some m =>
      simp only [hf] at h ⊢
      exact fanout_go_last env s.grid_spacing s.last_request_time_ms loc fanout_deltas
        (by rw [hf]; rfl)
    | none =>
      simp only [hf] at h ⊢
      cases hsc : (scan_cache env.millis s.last_request_time_ms s.grid_spacing s.cache).1 with
      | some m =>
        simp only [hsc] at h ⊢
        exact scan_cache_last env.millis s.last_request_time_ms s.grid_spacing s.cache
          (by rw [hsc]; rfl)
      | none =>
        simp only [hsc, hs1, Bool.false_eq_true, if_false] at h ⊢
        simp at h

/-- Whenever a tick issues a request, the tick's `last_request_time_ms` is the
tick's current time. -/
theorem send_request_stamps (env : Env) (s : TerrainState)
    (h : (send_request env s).request.isSome = true) :
    (send_request env s).last_request_time_ms = env.millis := by
  unfold send_request at h ⊢
  by_cases he : s.enable = 0
  · rw [if_pos he] at h
    simp at h
  · rw [if_neg he] at h ⊢
    by_cases hd : delta32 env.millis s.last_request_time_ms < 2000
    · rw [if_pos hd] at h
      simp at h
    · rw [if_neg hd] at h ⊢
      cases hp : env.position with
      | none =>
        rw [hp] at h
        simp at h
      | some loc =>
        rw [hp] at h
        exact send_request_body_stamps env s loc h

/-- A tick within the pacing dwell of the last issuance sends nothing. -/
theorem send_request_skip (env : Env) (s : TerrainState)
    (h : delta32 env.millis s.last_request_time_ms < 2000) :
    (send_request env s).request = none := by
  unfold send_request
  by_cases he : s.enable = 0
  · rw [if_pos he]
  · rw [if_neg he, if_pos h]

/-- The wrapped uint32 difference of two counter values less than 2000 ms apart is
their true difference. -/
theorem delta32_small (t1 t2 : Nat) (h12 : t1 ≤ t2) (hd : t2 - t1 < 2000) :
    delta32 t2 t1 < 2000 := by
  unfold delta32
  omega

/-- C6: the scheduler never issues within 2000 ms of the last issuance — two
invocations less than 2000 ms apart issue at most one combined request (there is no
backlog state: the skipped tick returns with nothing recorded), while two
invocations 2000 ms apart can each issue one (shown on the concrete open
environment). -/
theorem claim_C6_scheduler_pacing :
    (∀ (s : TerrainState) (env1 env2 : Env),
      env1.millis ≤ env2.millis →
      env2.millis - env1.millis < 2000 →
      req_count (send_request env1 s)
        + req_count (send_request env2 (state_after s (send_request env1 s))) ≤ 1)
    ∧ ((send_request envOpen st0).request.isSome = true ∧
       (send_request envOpen2 (state_after st0 (send_request envOpen st0))).request.isSome
         = true ∧
       2000 ≤ envOpen2.millis - envOpen.millis) := by
  constructor
  · intro s env1 env2 h12 hd
    by_cases h1 : (send_request env1 s).request.isSome = true
    · have hl : (send_request env1 s).last_request_time_ms = env1.millis :=
        send_request_stamps env1 s h1
      have h2 : (send_request env2 (state_after s (send_request env1 s))).request = none := by
        apply send_request_skip
        show delta32 env2.millis (send_request env1 s).last_request_time_ms < 2000
        rw [hl]
        exact delta32_small env1.millis env2.millis h12 hd
      simp [req_count, h1, h2]
    · have h1' : (send_request env1 s).request = none := by
        cases hopt : (send_request env1 s).request with
        | none => rfl
        | some m => rw [hopt] at h1; simp at h1
      simp only [req_count, h1', Option.isSome_none, Bool.false_eq_true, if_false,
        Nat.zero_add]
      split_ifs <;> omega
  · refine ⟨by decide, by decide, by decide⟩

/-- Witness for C6 on two concrete invocations 1000 ms apart. -/
theorem claim_C6_scheduler_pacing_witness :
    envOpen.millis ≤ envOpen1.millis ∧ envOpen1.millis - envOpen.millis < 2000 ∧
    req_count (send_request envOpen st0)
      + req_count (send_request envOpen1 (state_after st0 (send_request envOpen st0))) ≤ 1 :=
  ⟨by decide, by decide,
   claim_C6_scheduler_pacing.1 st0 envOpen envOpen1 (by decide) (by decide)⟩

/-! ### Disabled subsystem -/

/-- C4 counterexample: with the subsystem disabled (`enable = 0`), inbound
TERRAIN_DATA handling still mutates tile state — `handle_data` has no enable
check. -/
theorem claim_C4_disabled_cex :
    stDis.enable = 0 ∧
    (handle_data (mavlink_msg.terrain_data pktBit5) stDis).cache ≠ stDis.cache := by
  refine ⟨rfl, ?_⟩
  intro hEq
  have hb : bitmap_at (handle_data (mavlink_msg.terrain_data pktBit5) stDis).cache 0
      = bitmap_at stDis.cache 0 := congrArg (fun c => bitmap_at c 0) hEq
  have h1 : bitmap_at (handle_data (mavlink_msg.terrain_data pktBit5) stDis).cache 0 = 32 := by
    decide
  have h2 : bitmap_at stDis.cache 0 = 0 := by decide
  rw [h1, h2] at hb
  exact absurd hb (by decide)

/-- C4 (amended): when disabled, the scheduler tick is a complete no-op — no
request, no report, no disk-IO hook, no state change; inbound message handling is
*not* gated on `enable` and acts identically for every value of the flag (so a
disabled system still ingests TERRAIN_DATA). -/
theorem claim_C4_disabled_scheduler_noop :
    (∀ (env : Env) (s : TerrainState), s.enable = 0 →
      send_request env s = ⟨none, false, s.last_request_time_ms, s.cache, false, []⟩)
    ∧ (∀ (msg : mavlink_msg) (s : TerrainState) (e : Int),
      (handle_data msg { s with enable := e }).cache = (handle_data msg s).cache) := by
  constructor
  · intro env s h
    unfold send_request
    rw [if_pos h]
  · intro msg s e
    cases msg with
    | terrain_data pkt => rfl
    | terrain_check la lo => rfl
    | other m => rfl

/-- Witness for C4 (amended): the disabled fixture state. -/
theorem claim_C4_disabled_scheduler_noop_witness :
    send_request envOpen stDis
      = ⟨none, false, stDis.last_request_time_ms, stDis.cache, false, []⟩ :=
  claim_C4_disabled_scheduler_noop.1 envOpen stDis rfl

/-! ### Fan-out structure -/

/-- When every offset's tile declines, the fan-out walks all its offsets in order
and issues nothing. -/
theorem fanout_go_all_fail (env : Env) (gsp last : Nat) (loc : Location) :
    ∀ ds : List (Int × Int),
    (∀ d ∈ ds, fanout_attempt env gsp loc d = false) →
    fanout_go env gsp last loc ds = (ds.map (fanout_offset gsp), none, last) := by
  intro ds
  induction ds with
  | nil => intro _; rfl
  | cons d rest ih =>
    intro h
    have hd : fanout_attempt env gsp loc d = false := h d (by simp)
    have hsent : (request_missing env.millis last gsp (env.find_grid (env.calc_grid_info
        (env.location_offset loc (fanout_offset gsp d).1 (fanout_offset gsp d).2)))).sent
        = false := by
      rw [request_missing_sent]
      exact hd
    unfold fanout_go
    simp only [hsent, Bool.false_eq_true, if_false,
      ih (fun d' hd' => h d' (by simp [hd'])), List.map_cons]

/-- The fan-out stops at the first offset whose tile accepts: it walks exactly the
failing prefix plus that offset, sends that tile's request and stamps the time. -/
theorem fanout_go_first (env : Env) (gsp last : Nat) (loc : Location) :
    ∀ (ds1 : List (Int × Int)) (d : Int × Int) (ds2 : List (Int × Int)),
    (∀ d' ∈ ds1, fanout_attempt env gsp loc d' = false) →
    fanout_attempt env gsp loc d = true →
    fanout_go env gsp last loc (ds1 ++ d :: ds2)
      = ((ds1 ++ [d]).map (fanout_offset gsp),
         (request_missing env.millis last gsp (env.find_grid (env.calc_grid_info
           (env.location_offset loc (fanout_offset gsp d).1 (fanout_offset gsp d).2)))).msg,
         env.millis) := by
  intro ds1
  induction ds1 with
  | nil =>
    intro d ds2 _ hd
    have hsent : (request_missing env.millis last gsp (env.find_grid (env.calc_grid_info
        (env.location_offset loc (fanout_offset gsp d).1 (fanout_offset gsp d).2)))).sent
        = true := by
      rw [request_missing_sent]
      exact hd
    simp only [List.nil_append, fanout_go, hsent, if_true, List.map_cons, List.map_nil]
    rw [request_missing_sent_last _ _ _ _ hsent]
  | cons d1 t ih =>
    intro d ds2 h1 hd
    have hf : fanout_attempt env gsp loc d1 = false := h1 d1 (by simp)
    have hsent : (request_missing env.millis last gsp (env.find_grid (env.calc_grid_info
        (env.location_offset loc (fanout_offset gsp d1).1 (fanout_offset gsp d1).2)))).sent
        = false := by
      rw [request_missing_sent]
      exact hf
    simp only [List.cons_append, fanout_go, hsent, Bool.false_eq_true, if_false,
      List.append_eq, ih d ds2 (fun d' hd' => h1 d' (by simp [hd'])) hd, List.map_cons]

/-- C3 counterexample: after the current tile declines, the fan-out tries *nine*
offsets — the full 3×3 grid including the center `(0, 0)` — not just the 8
neighbors the claim describes. -/
theorem claim_C3_fanout_center_cex :
    (send_request envFull st0).offsets_tried.length = 9 ∧
    ((0 : Rat), (0 : Rat)) ∈ (send_request envFull st0).offsets_tried ∧
    (send_request envFull st0).offsets_tried ≠ neighbor_offsets st0.grid_spacing := by
  have hfail : ∀ d ∈ fanout_deltas, fanout_attempt envFull 100 ⟨10, 20⟩ d = false := by
    intro d _
    simp [fanout_attempt, envFull, envOpen, rm_acts, gcFull, bitmap_mask]
  have h1 : (send_request envFull st0).offsets_tried
      = (fanout_go envFull 100 0 ⟨10, 20⟩ fanout_deltas).1 := rfl
  have h2 : (send_request envFull st0).offsets_tried
      = fanout_deltas.map (fanout_offset 100) := by
    rw [h1, fanout_go_all_fail envFull 100 0 ⟨10, 20⟩ fanout_deltas hfail]
  refine ⟨?_, ?_, ?_⟩
  · rw [h2, List.length_map]
    decide
  · rw [h2]
    refine List.mem_map.mpr ⟨(0, 0), by decide, ?_⟩
    simp [fanout_offset]
  · rw [h2]
    intro heq
    have hlen := congrArg List.length heq
    rw [List.length_map] at hlen
    have h9 : fanout_deltas.length = 9 := by decide
    have h8 : (neighbor_offsets st0.grid_spacing).length = 8 := by
      show ((fanout_deltas.filter (fun d => d ≠ (0, 0))).map
        (fanout_offset st0.grid_spacing)).length = 8
      rw [List.length_map]
      decide
    omega

/-- C3 (amended): the fan-out attempts request_missing at all nine 3×3 offsets in
row-major source order (x outer from −1 to 1, y inner), the center included as the
fifth attempt at displacement `(0, 0)`; each displacement is
`±0.7 × block extent × spacing` in the respective axis; and the loop stops at the
first issuance, having tried exactly the failing prefix plus the issuing offset. -/
theorem claim_C3_fanout_structure :
    (∀ gsp : Nat, fanout_deltas.map (fanout_offset gsp)
      = [(-((TERRAIN_GRID_BLOCK_SIZE_X : Nat) * (7 / 10 : Rat) * gsp),
          -((TERRAIN_GRID_BLOCK_SIZE_Y : Nat) * (7 / 10 : Rat) * gsp)),
         (-((TERRAIN_GRID_BLOCK_SIZE_X : Nat) * (7 / 10 : Rat) * gsp), 0),
         (-((TERRAIN_GRID_BLOCK_SIZE_X : Nat) * (7 / 10 : Rat) * gsp),
          (TERRAIN_GRID_BLOCK_SIZE_Y : Nat) * (7 / 10 : Rat) * gsp),
         (0, -((TERRAIN_GRID_BLOCK_SIZE_Y : Nat) * (7 / 10 : Rat) * gsp)),
         (0, 0),
         (0, (TERRAIN_GRID_BLOCK_SIZE_Y : Nat) * (7 / 10 : Rat) * gsp),
         ((TERRAIN_GRID_BLOCK_SIZE_X : Nat) * (7 / 10 : Rat) * gsp,
          -((TERRAIN_GRID_BLOCK_SIZE_Y : Nat) * (7 / 10 : Rat) * gsp)),
         ((TERRAIN_GRID_BLOCK_SIZE_X : Nat) * (7 / 10 : Rat) * gsp, 0),
         ((TERRAIN_GRID_BLOCK_SIZE_X : Nat) * (7 / 10 : Rat) * gsp,
          (TERRAIN_GRID_BLOCK_SIZE_Y : Nat) * (7 / 10 : Rat) * gsp)])
    ∧ (∀ (env : Env) (gsp last : Nat) (loc : Location),
        (∀ d ∈ fanout_deltas, fanout_attempt env gsp loc d = false) →
        fanout_go env gsp last loc fanout_deltas
          = (fanout_deltas.map (fanout_offset gsp), none, last))
    ∧ (∀ (env : Env) (gsp last : Nat) (loc : Location)
         (ds1 : List (Int × Int)) (d : Int × Int) (ds2 : List (Int × Int)),
        fanout_deltas = ds1 ++ d :: ds2 →
        (∀ d' ∈ ds1, fanout_attempt env gsp loc d' = false) →
        fanout_attempt env gsp loc d = true →
        (fanout_go env gsp last loc fanout_deltas).1 = (ds1 ++ [d]).map (fanout_offset gsp)
        ∧ (fanout_go env gsp last loc fanout_deltas).2.1.isSome = true) := by
  refine ⟨?_, ?_, ?_⟩
  · intro gsp
    have hd : fanout_deltas
        = [(-1, -1), (-1, 0), (-1, 1), (0, -1), (0, 0), (0, 1), (1, -1), (1, 0), (1, 1)] := by
      decide
    rw [hd]
    simp only [List.map_cons, List.map_nil, fanout_offset, List.cons.injEq, Prod.mk.injEq]
    norm_num
  · intro env gsp last loc h
    exact fanout_go_all_fail env gsp last loc fanout_deltas h
  · intro env gsp last loc ds1 d ds2 hsplit h1 hd
    rw [hsplit, fanout_go_first env gsp last loc ds1 d ds2 h1 hd]
    refine ⟨rfl, ?_⟩
    have hsent : (request_missing env.millis last gsp (env.find_grid (env.calc_grid_info
        (env.location_offset loc (fanout_offset gsp d).1 (fanout_offset gsp d).2)))).sent
        = true := by
      rw [request_missing_sent]
      exact hd
    exact request_missing_sent_msg _ _ _ _ hsent

/-- Witness for C3 (amended): in the open environment the very first offset issues,
so the fan-out tries exactly one offset and sends. -/
theorem claim_C3_fanout_structure_witness :
    (fanout_go envOpen 100 0 ⟨10, 20⟩ fanout_deltas).1
      = ([((-1 : Int), (-1 : Int))] : List (Int × Int)).map (fanout_offset 100)
    ∧ (fanout_go envOpen 100 0 ⟨10, 20⟩ fanout_deltas).2.1.isSome = true :=
  claim_C3_fanout_structure.2.2 envOpen 100 0 ⟨10, 20⟩ [] ((-1 : Int), (-1 : Int))
    [(-1, 0), (-1, 1), (0, -1), (0, 0), (0, 1), (1, -1), (1, 0), (1, 1)]
    (by decide) (by simp) (by decide)

end Terrain
